import Mathlib

/-!
Verification of the data-access layer of the Canvas course-management tool
(`src/app.py`): the paginated fetcher `_paginated_get_from_api`, the
enrollment counter `get_enrollment_count`, the TTL file cache
(`_load_from_file_cache` / `_save_to_file_cache`), and the course-update
payload construction.  Dynamic values are embedded as `PyVal`, HTTP traffic
as a pure function from URL to `Response`, the file system as a map from
path to `FileContent`, and wall-clock time as rational seconds passed
explicitly.
-/

/-- Values of the dynamic language as they occur in parsed response bodies
and cache entries: a list, a dict (association list of string keys in
insertion order), or a string. -/
inductive PyVal where
  | pylist (items : List PyVal)
  | pydict (fields : List (String × PyVal))
  | pystr (s : String)

/-- An HTTP response as `app.py` observes it: the status code, the parsed
JSON body, and the value of the `Link` header (`""` when the header is
absent, matching `resp.headers.get('Link', '')`). -/
structure Response where
  status_code : Nat
  body : PyVal
  linkHeader : String

/-- A server is modelled as a pure map from request URL to response; the
code only ever issues GETs with fixed headers inside the fetcher. -/
def Server : Type := String → Response

/-- Python `s.split(sep)` for a one-character separator, on the character
list: splits at every occurrence, and `"".split(',') = ['']`. -/
def splitOnCharAux (sep : Char) : List Char → List Char → List (List Char)
  | [], cur => [cur.reverse]
  | c :: rest, cur =>
      if c == sep then cur.reverse :: splitOnCharAux sep rest []
      else splitOnCharAux sep rest (c :: cur)

/-- Python `s.split(sep)` for a one-character separator. -/
def splitOnChar (sep : Char) (s : List Char) : List (List Char) :=
  splitOnCharAux sep s []

/-- `startsWithChars needle hay`: `needle` is a prefix of `hay`. -/
def startsWithChars : List Char → List Char → Bool
  | [], _ => true
  | _ :: _, [] => false
  | a :: as, b :: bs => a == b && startsWithChars as bs

/-- Python substring test `needle in hay`. -/
def containsChars (needle : List Char) : List Char → Bool
  | [] => startsWithChars needle []
  | c :: rest => startsWithChars needle (c :: rest) || containsChars needle rest

/-- Python `s.strip('<>')`: remove leading and trailing characters drawn
from the set `{'<', '>'}` (and nothing else — inner characters and other
leading characters such as spaces are kept). -/
def stripAngles (s : List Char) : List Char :=
  ((s.dropWhile fun c => c == '<' || c == '>').reverse.dropWhile
      fun c => c == '<' || c == '>').reverse

/-- The literal `rel="next"` searched for in each `Link`-header entry. -/
def relNextMarker : List Char := "rel=\"next\"".data

/-- The next-page URL extraction inside `_paginated_get_from_api`:
`links = resp.headers.get('Link', '').split(',')` followed by
`next((l.split(';')[0].strip('<>') for l in links if 'rel="next"' in l), None)`. -/
def getNextUrl (linkHeader : String) : Option String :=
  (splitOnChar ',' linkHeader.data).findSome? fun l =>
    if containsChars relNextMarker l then
      some (String.mk (stripAngles ((splitOnChar ';' l).headD [])))
    else none

/-- Python `fields.get(key, dflt)` on a dict. -/
def dictGet (fields : List (String × PyVal)) (key : String) (dflt : PyVal) : PyVal :=
  match fields.lookup key with
  | some v => v
  | none => dflt

/-- The body normalization `data.get('enrollment_terms', data) if
isinstance(data, dict) else data` from `_paginated_get_from_api`. -/
def normalizeData : PyVal → PyVal
  | .pydict fields => dictGet fields "enrollment_terms" (.pydict fields)
  | data => data

/-- Python `all_data.extend(v)`: the element sequence obtained by iterating
`v` — a list yields its items, a dict its keys (in insertion order), a
string its characters as one-character strings. -/
def extendItems : PyVal → List PyVal
  | .pylist items => items
  | .pydict fields => fields.map fun kv => PyVal.pystr kv.1
  | .pystr s => s.data.map fun c => PyVal.pystr (String.singleton c)

/-- The `while current_url:` loop of `_paginated_get_from_api`, with an
explicit fuel bound on the number of GETs (the source has no bound; fuel
exhaustion is the `none` outcome).  The loop condition is Python
truthiness: it exits both when `current_url` is `None` and when it is the
empty string `""` (reachable, since the extracted next link strips down
to `""` on a header such as `<>; rel="next"`).  Each iteration GETs the
current URL, breaks on a status other than 200, extends the accumulator
with the normalized body, and moves to the `rel="next"` link. -/
def paginatedLoop (server : Server) : Nat → Option String → List PyVal → Option (List PyVal)
  | _, none, acc => some acc
  | 0, some url, acc => if url = "" then some acc else none
  | fuel + 1, some url, acc =>
      if url = "" then some acc
      else
        let resp := server url
        if resp.status_code ≠ 200 then some acc
        else paginatedLoop server fuel (getNextUrl resp.linkHeader)
               (acc ++ extendItems (normalizeData resp.body))

/-- `_paginated_get_from_api(url, headers)`: run the pagination loop from
`url` with an empty accumulator (an empty starting URL is falsy, so the
loop body never runs and the empty list comes back). -/
def paginated_get_from_api (server : Server) (fuel : Nat) (url : String) :
    Option (List PyVal) :=
  paginatedLoop server fuel (some url) []

/-- Python `len(v)`. -/
def pyLen : PyVal → Nat
  | .pylist items => items.length
  | .pydict fields => fields.length
  | .pystr s => s.length

/-- `get_enrollment_count(course_id, base_url, headers)`: GET the active
student enrollments and return the record count on status 200, else 0. -/
def get_enrollment_count (server : Server) (course_id : String) (base_url : String) : Nat :=
  let url := base_url ++ "/api/v1/courses/" ++ course_id
      ++ "/enrollments?type[]=StudentEnrollment&state[]=active"
  let resp := server url
  if resp.status_code = 200 then pyLen resp.body else 0

/-- Contents of a cache file: a pickled `(data, timestamp)` pair, or bytes
that `pickle.load` cannot deserialize. -/
inductive FileContent where
  | pickled (data : List PyVal) (timestamp : ℚ)
  | corrupt

/-- The file system as the cache sees it: path to contents (timestamps are
rational seconds; `datetime` subtraction is exact at this granularity). -/
def FileSys : Type := String → Option FileContent

/-- `CACHE_TTL_HOURS = 24` from the configuration block. -/
def CACHE_TTL_HOURS : ℚ := 24

/-- `_load_from_file_cache(filepath)`, with the TTL constant made an
explicit parameter (the source inlines `CACHE_TTL_HOURS`; the spec calls
the TTL configurable with default 24).  A missing file yields
`(None, None)`; a corrupt file makes `pickle.load` raise (`Except.error`);
a stored pair is returned only while elapsed hours stay below the TTL. -/
def load_from_file_cache_ttl (ttl : ℚ) (fs : FileSys) (now : ℚ) (filepath : String) :
    Except String (Option (List PyVal × ℚ)) :=
  match fs filepath with
  | none => .ok none
  | some .corrupt => .error "UnpicklingError"
  | some (.pickled data timestamp) =>
      if (now - timestamp) / 3600 < ttl then .ok (some (data, timestamp))
      else .ok none

/-- `_load_from_file_cache` exactly as in the source, TTL = `CACHE_TTL_HOURS`. -/
def load_from_file_cache : FileSys → ℚ → String → Except String (Option (List PyVal × ℚ)) :=
  load_from_file_cache_ttl CACHE_TTL_HOURS

/-- `_save_to_file_cache(filepath, data)`: overwrite the file at `filepath`
with the pickled `(data, datetime.now())` pair. -/
def save_to_file_cache (fs : FileSys) (now : ℚ) (filepath : String)
    (data : List PyVal) : FileSys :=
  fun p => if p = filepath then some (.pickled data now) else fs p

/-- The course-update payload built before the PUT in the quick-search
flow (the `course` sub-object plus `override_sis_stickiness`).  Dates are
already ISO-formatted strings (`f"{date}"`), `none` standing for Python
`None`. -/
structure CourseUpdatePayload where
  start_at : Option String
  end_at : Option String
  restrict_enrollments_to_course_dates : Bool
  override_sis_stickiness : Bool

/-- The `payload` dict literal from `app.py`:
`start_at = f"{start_date}T00:00:00Z" if start_date and mode == "Date Driven" else None`,
`end_at = f"{end_date}T23:59:59Z" if end_date and mode == "Date Driven" else None`,
`restrict_enrollments_to_course_dates = (mode == "Date Driven")`,
`override_sis_stickiness = True`. -/
def payload (mode : String) (start_date end_date : Option String) : CourseUpdatePayload :=
  { start_at :=
      match start_date with
      | some d => if mode == "Date Driven" then some (d ++ "T00:00:00Z") else none
      | none => none
    end_at :=
      match end_date with
      | some d => if mode == "Date Driven" then some (d ++ "T23:59:59Z") else none
      | none => none
    restrict_enrollments_to_course_dates := mode == "Date Driven"
    override_sis_stickiness := true }

/-- The chain of `next` links starting at `ourl` reaches a terminating
page (non-200 status, no `rel="next"` entry, or an extracted next URL
that is the falsy `""`) within `n` requests. -/
def terminatesWithin (server : Server) : Nat → Option String → Bool
  | _, none => true
  | 0, some url => url == ""
  | n + 1, some url =>
      if url = "" then true
      else if (server url).status_code ≠ 200 then true
      else terminatesWithin server n (getNextUrl (server url).linkHeader)

/-- A well-formed paginated response sequence: every page lives at a
non-empty URL (an empty URL is falsy and is never requested by the
`while current_url:` loop) and answers with status 200 and a bare-list
body, every page but the last carries a `rel="next"` link to the
following page, and the last page carries none. -/
inductive ServesChain (server : Server) : String → List (List PyVal) → Prop
  | last (url : String) (recs : List PyVal) :
      url ≠ "" →
      (server url).status_code = 200 →
      (server url).body = .pylist recs →
      getNextUrl (server url).linkHeader = none →
      ServesChain server url [recs]
  | cons (url next : String) (recs : List PyVal) (rest : List (List PyVal)) :
      url ≠ "" →
      (server url).status_code = 200 →
      (server url).body = .pylist recs →
      getNextUrl (server url).linkHeader = some next →
      ServesChain server next rest →
      ServesChain server url (recs :: rest)

/-- A paginated response sequence whose successful prefix is followed by a
page with a non-2xx status: each page lives at a non-empty URL (so it is
actually requested by the `while current_url:` loop), each listed page
answers 200 with a bare-list body and a `rel="next"` link, and the page
after the last listed one answers with a status outside `[200, 300)`. -/
inductive ServesFailingChain (server : Server) : String → List (List PyVal) → Prop
  | fail (url : String) :
      url ≠ "" →
      (server url).status_code < 200 ∨ 300 ≤ (server url).status_code →
      ServesFailingChain server url []
  | cons (url next : String) (recs : List PyVal) (rest : List (List PyVal)) :
      url ≠ "" →
      (server url).status_code = 200 →
      (server url).body = .pylist recs →
      getNextUrl (server url).linkHeader = some next →
      ServesFailingChain server next rest →
      ServesFailingChain server url (recs :: rest)

/-- A server answering every URL with status 201 Created, one record, and
no `Link` header. -/
def createdServer : Server := fun _ =>
  { status_code := 201, body := .pylist [.pystr "record1"], linkHeader := "" }

/-- A two-page server: `pageA` links to `pageB`, `pageB` is last. -/
def chainServer : Server := fun u =>
  if u = "pageA" then
    { status_code := 200, body := .pylist [.pystr "t1", .pystr "t2"],
      linkHeader := "<pageB>; rel=\"next\"" }
  else if u = "pageB" then
    { status_code := 200, body := .pylist [.pystr "t3"], linkHeader := "" }
  else
    { status_code := 404, body := .pylist [], linkHeader := "" }

/-- A server whose first page succeeds and links to a page answering 500. -/
def failAfterOneServer : Server := fun u =>
  if u = "pageF1" then
    { status_code := 200, body := .pylist [.pystr "t1"],
      linkHeader := "<pageF2>; rel=\"next\"" }
  else
    { status_code := 500, body := .pystr "Internal Server Error", linkHeader := "" }

/-- A server answering every URL with status 500 and a non-empty body. -/
def fiveHundredServer : Server := fun _ =>
  { status_code := 500, body := .pylist [.pystr "error detail"], linkHeader := "" }

/-- A server answering every URL with status 200 and an empty list. -/
def emptyOkServer : Server := fun _ =>
  { status_code := 200, body := .pylist [], linkHeader := "" }

/-- A server answering every URL with a body wrapping the records under
the `enrollment_terms` field. -/
def wrappedServer : Server := fun _ =>
  { status_code := 200,
    body := .pydict [("enrollment_terms", .pylist [.pystr "w1", .pystr "w2"])],
    linkHeader := "" }

/-- A server whose page `loop` succeeds and links back to itself. -/
def loopServer : Server := fun _ =>
  { status_code := 200, body := .pylist [], linkHeader := "<loop>; rel=\"next\"" }

/-- The empty file system. -/
def emptyFS : FileSys := fun _ => none

/-- A file system holding one corrupt cache file. -/
def corruptFS : FileSys := fun p =>
  if p = ".canvas_cache/terms.pkl" then some .corrupt else none

/-- A file system holding one entry pickled at timestamp 0. -/
def storedFS : FileSys := fun p =>
  if p = ".canvas_cache/terms.pkl" then some (.pickled [.pystr "x"] 0) else none

/-- One successful step of the pagination loop at a non-empty (truthy)
URL appends the page's records and recurses on the extracted next link. -/
theorem paginatedLoop_succ_of_ok (server : Server) (url : String)
    (acc : List PyVal) (fuel : Nat) (hne : url ≠ "")
    (h200 : (server url).status_code = 200) :
    paginatedLoop server (fuel + 1) (some url) acc
      = paginatedLoop server fuel (getNextUrl (server url).linkHeader)
          (acc ++ extendItems (normalizeData (server url).body)) := by
  simp [paginatedLoop, hne, h200]

/-- Along a well-formed chain, the loop returns the accumulator followed by
the concatenation of all pages, given fuel at least the number of pages. -/
theorem paginatedLoop_of_servesChain {server : Server} {url : String}
    {pages : List (List PyVal)} (h : ServesChain server url pages) :
    ∀ (acc : List PyVal) (fuel : Nat), pages.length ≤ fuel →
      paginatedLoop server fuel (some url) acc = some (acc ++ pages.flatten) := by
  induction h with
  | last url recs hne h200 hbody hnext =>
      intro acc fuel hfuel
      obtain ⟨f, rfl⟩ : ∃ f, fuel = f + 1 := ⟨fuel - 1, by simp at hfuel; omega⟩
      rw [paginatedLoop_succ_of_ok server url acc f hne h200, hbody, hnext]
      simp [paginatedLoop, normalizeData, extendItems]
  | cons url next recs rest hne h200 hbody hnext _ ih =>
      intro acc fuel hfuel
      obtain ⟨f, rfl⟩ : ∃ f, fuel = f + 1 := ⟨fuel - 1, by simp at hfuel; omega⟩
      rw [paginatedLoop_succ_of_ok server url acc f hne h200, hbody, hnext]
      rw [show extendItems (normalizeData (.pylist recs)) = recs from rfl]
      rw [ih (acc ++ recs) f (by simp at hfuel; omega)]
      simp

/-- C1: for every paginated response sequence of N pages with sizes
s₁..sₙ at non-empty URLs, where every page answers with status 200 (the
code's success test is `status_code != 200`, not membership in the 2xx
class) and every page but the last supplies a `rel="next"` Link entry,
the fetcher returns exactly the concatenation of all pages, in server
page order and then in-page order — Σsᵢ records in total. -/
theorem C1_paginated_full (server : Server) (url : String)
    (pages : List (List PyVal)) (fuel : Nat)
    (hchain : ServesChain server url pages) (hfuel : pages.length ≤ fuel) :
    paginated_get_from_api server fuel url = some pages.flatten := by
  rw [paginated_get_from_api, paginatedLoop_of_servesChain hchain [] fuel hfuel]
  simp

/-- C1 witness: a concrete two-page chain of sizes 2 and 1 yields the
three records in order. -/
theorem C1_witness :
    paginated_get_from_api chainServer 2 "pageA"
      = some [.pystr "t1", .pystr "t2", .pystr "t3"] := by
  have hchain : ServesChain chainServer "pageA" [[.pystr "t1", .pystr "t2"], [.pystr "t3"]] :=
    ServesChain.cons _ "pageB" _ _ (by decide) rfl rfl rfl
      (ServesChain.last _ _ (by decide) rfl rfl rfl)
  exact C1_paginated_full chainServer "pageA" _ 2 hchain (by norm_num)

/-- C1 counterexample: a single page answering with the success status 201
(2xx) and one record, with no next link.  The claim as stated (any success
status) promises that one record back; the fetcher's `!= 200` test treats
201 as failure and returns the empty accumulation instead. -/
theorem C1_counterexample :
    (200 ≤ (createdServer "start").status_code
        ∧ (createdServer "start").status_code < 300)
    ∧ getNextUrl (createdServer "start").linkHeader = none
    ∧ (createdServer "start").body = .pylist [.pystr "record1"]
    ∧ paginated_get_from_api createdServer 5 "start" = some []
    ∧ paginated_get_from_api createdServer 5 "start" ≠ some [.pystr "record1"] := by
  refine ⟨⟨by decide, by decide⟩, rfl, rfl, rfl, ?_⟩
  intro h
  have h2 : (some ([] : List PyVal)) = some [PyVal.pystr "record1"] := h
  exact List.noConfusion (Option.some.inj h2)

/-- Along a chain whose page after the successful prefix answers with a
non-2xx status, the loop returns the accumulator followed by the
concatenation of the successful prefix only. -/
theorem paginatedLoop_of_failingChain {server : Server} {url : String}
    {pages : List (List PyVal)} (h : ServesFailingChain server url pages) :
    ∀ (acc : List PyVal) (fuel : Nat), pages.length < fuel →
      paginatedLoop server fuel (some url) acc = some (acc ++ pages.flatten) := by
  induction h with
  | fail url hne hstatus =>
      intro acc fuel hfuel
      obtain ⟨f, rfl⟩ : ∃ f, fuel = f + 1 := ⟨fuel - 1, by omega⟩
      have hs : (server url).status_code ≠ 200 := by omega
      simp [paginatedLoop, hne, hs]
  | cons url next recs rest hne h200 hbody hnext _ ih =>
      intro acc fuel hfuel
      obtain ⟨f, rfl⟩ : ∃ f, fuel = f + 1 := ⟨fuel - 1, by omega⟩
      rw [paginatedLoop_succ_of_ok server url acc f hne h200, hbody, hnext]
      rw [show extendItems (normalizeData (.pylist recs)) = recs from rfl]
      rw [ih (acc ++ recs) f (by simp at hfuel; omega)]
      simp

/-- C2: if page k of a paginated response sequence answers with a non-2xx
status after pages 1..k-1 each answered 200 with a `rel="next"` link, the
fetcher stops at page k and returns exactly the accumulated records of
pages 1..k-1, as a normal value (no error). -/
theorem C2_stops_on_failure (server : Server) (url : String)
    (pages : List (List PyVal)) (fuel : Nat)
    (hchain : ServesFailingChain server url pages)
    (hfuel : pages.length < fuel) :
    paginated_get_from_api server fuel url = some pages.flatten := by
  rw [paginated_get_from_api, paginatedLoop_of_failingChain hchain [] fuel hfuel]
  simp

/-- C2 witness: one successful page of one record followed by a 500 page
yields exactly that one record. -/
theorem C2_witness :
    paginated_get_from_api failAfterOneServer 2 "pageF1" = some [.pystr "t1"] := by
  have hchain : ServesFailingChain failAfterOneServer "pageF1" [[.pystr "t1"]] :=
    ServesFailingChain.cons _ "pageF2" _ _ (by decide) rfl rfl rfl
      (ServesFailingChain.fail _ (by decide) (Or.inr (by decide)))
  exact C2_stops_on_failure failAfterOneServer "pageF1" _ 2 hchain (by norm_num)

/-- C3: write–read round trip — `write(key, R)` immediately followed by
`read(key)` returns `(R, t)` with `t` equal to the write time, for any
TTL > 0 (and in particular for the source's `CACHE_TTL_HOURS = 24`). -/
theorem C3_write_read_roundtrip (ttl : ℚ) (httl : 0 < ttl)
    (fs : FileSys) (now : ℚ) (key : String) (R : List PyVal) :
    load_from_file_cache_ttl ttl (save_to_file_cache fs now key R) now key
        = .ok (some (R, now))
    ∧ load_from_file_cache (save_to_file_cache fs now key R) now key
        = .ok (some (R, now)) := by
  have hkey : save_to_file_cache fs now key R key = some (.pickled R now) := by
    simp [save_to_file_cache]
  constructor
  · simp [load_from_file_cache_ttl, hkey, sub_self, httl]
  · have h24 : (0 : ℚ) < CACHE_TTL_HOURS := by norm_num [CACHE_TTL_HOURS]
    simp [load_from_file_cache, load_from_file_cache_ttl, hkey, sub_self, h24]

/-- C3 witness: round trip at TTL 1 on the empty file system. -/
theorem C3_witness :
    load_from_file_cache_ttl 1 (save_to_file_cache emptyFS 0 ".canvas_cache/terms.pkl" [])
        0 ".canvas_cache/terms.pkl" = .ok (some ([], 0))
    ∧ load_from_file_cache (save_to_file_cache emptyFS 0 ".canvas_cache/terms.pkl" [])
        0 ".canvas_cache/terms.pkl" = .ok (some ([], 0)) :=
  C3_write_read_roundtrip 1 (by norm_num) emptyFS 0 ".canvas_cache/terms.pkl" []

/-- C4: for a stored entry `(R, ts)`, `read` at time `now` is absent
exactly when the elapsed hours `(now - ts)/3600` reach the TTL; below the
TTL the records and stored timestamp come back; and at the exact boundary
`now = ts + 3600·ttl` the entry counts as expired. -/
theorem C4_ttl_expiry (ttl : ℚ) (fs : FileSys) (now ts : ℚ) (key : String)
    (R : List PyVal) (hstored : fs key = some (.pickled R ts)) :
    (load_from_file_cache_ttl ttl fs now key = .ok none ↔ ttl ≤ (now - ts) / 3600)
    ∧ ((now - ts) / 3600 < ttl →
        load_from_file_cache_ttl ttl fs now key = .ok (some (R, ts)))
    ∧ load_from_file_cache_ttl ttl fs (ts + 3600 * ttl) key = .ok none := by
  have hb : (ts + 3600 * ttl - ts) / 3600 = ttl := by
    field_simp
  refine ⟨?_, ?_, ?_⟩
  · by_cases hlt : (now - ts) / 3600 < ttl
    · simp [load_from_file_cache_ttl, hstored, hlt]
    · simp [load_from_file_cache_ttl, hstored, hlt]
      exact le_of_not_lt hlt
  · intro hlt
    simp [load_from_file_cache_ttl, hstored, hlt]
  · simp [load_from_file_cache_ttl, hstored, hb]

/-- C4 witness: an entry stored at time 0 with TTL 24 is returned one hour
later, absent exactly when 24 hours have elapsed, and expired at the
86400-second boundary. -/
theorem C4_witness :
    (load_from_file_cache_ttl 24 storedFS 3600 ".canvas_cache/terms.pkl" = .ok none
        ↔ (24 : ℚ) ≤ (3600 - 0) / 3600)
    ∧ ((3600 - 0 : ℚ) / 3600 < 24 →
        load_from_file_cache_ttl 24 storedFS 3600 ".canvas_cache/terms.pkl"
          = .ok (some ([.pystr "x"], 0)))
    ∧ load_from_file_cache_ttl 24 storedFS (0 + 3600 * 24) ".canvas_cache/terms.pkl"
        = .ok none :=
  C4_ttl_expiry 24 storedFS 3600 0 ".canvas_cache/terms.pkl" [.pystr "x"] rfl

/-- C5: the update payload is
`{start_at: "2024-01-15T00:00:00Z", end_at: "2024-05-30T23:59:59Z",
restrict_enrollments_to_course_dates: true}` in date-driven mode with
those dates; `{start_at: null, end_at: null,
restrict_enrollments_to_course_dates: false}` in term-driven mode
(whatever the date fields hold); and an absent end date in date-driven
mode sends null for `end_at`. -/
theorem C5_payload_shapes :
    payload "Date Driven" (some "2024-01-15") (some "2024-05-30")
        = { start_at := some "2024-01-15T00:00:00Z",
            end_at := some "2024-05-30T23:59:59Z",
            restrict_enrollments_to_course_dates := true,
            override_sis_stickiness := true }
    ∧ (∀ s e : Option String, payload "Term Driven" s e
        = { start_at := none, end_at := none,
            restrict_enrollments_to_course_dates := false,
            override_sis_stickiness := true })
    ∧ payload "Date Driven" (some "2024-01-15") none
        = { start_at := some "2024-01-15T00:00:00Z", end_at := none,
            restrict_enrollments_to_course_dates := true,
            override_sis_stickiness := true } := by
  refine ⟨rfl, ?_, rfl⟩
  rintro (_ | s) (_ | e) <;> rfl

/-- C6: the claim asks that a corrupt cache file read back as absent with
a warning; the source instead lets `pickle.load` raise, so the load
propagates an error — evaluated here on a file system holding one corrupt
file, at the default TTL and at every TTL. -/
theorem C6_corrupt_file_raises :
    load_from_file_cache corruptFS 0 ".canvas_cache/terms.pkl"
        = .error "UnpicklingError"
    ∧ ∀ ttl : ℚ, load_from_file_cache_ttl ttl corruptFS 0 ".canvas_cache/terms.pkl"
        = .error "UnpicklingError" :=
  ⟨rfl, fun _ => rfl⟩

/-- C7: `get_enrollment_count` returns the length of the returned record
array when the response status is 200, and 0 for every non-200 response —
so 0 both for a legitimate empty list and for a failed request. -/
theorem C7_enrollment_count (server : Server) (course_id base_url url : String)
    (hurl : url = base_url ++ "/api/v1/courses/" ++ course_id
        ++ "/enrollments?type[]=StudentEnrollment&state[]=active")
    (rs : List PyVal) (hbody : (server url).body = .pylist rs) :
    ((server url).status_code = 200 →
        get_enrollment_count server course_id base_url = rs.length)
    ∧ ((server url).status_code ≠ 200 →
        get_enrollment_count server course_id base_url = 0) := by
  subst hurl
  constructor
  · intro h200
    simp [get_enrollment_count, h200, hbody, pyLen]
  · intro hne
    simp [get_enrollment_count, hne]

/-- C7 witness: a 500 response and a 200 response with an empty list both
produce a count of 0. -/
theorem C7_witness :
    get_enrollment_count fiveHundredServer "42" "https://example.edu" = 0
    ∧ get_enrollment_count emptyOkServer "42" "https://example.edu" = 0 :=
  ⟨(C7_enrollment_count fiveHundredServer "42" "https://example.edu" _ rfl
      [.pystr "error detail"] rfl).2 (by decide),
   (C7_enrollment_count emptyOkServer "42" "https://example.edu" _ rfl
      [] rfl).1 rfl⟩

/-- C8: on a successful page, the fetcher appends to the accumulator the
same flat record sequence whether the body is the bare list of records or
an object wrapping that list under the `enrollment_terms` field, then
continues with the extracted next link. -/
theorem C8_body_normalization (server : Server) (url : String)
    (acc : List PyVal) (fuel : Nat) (rs : List PyVal)
    (hne : url ≠ "")
    (h200 : (server url).status_code = 200)
    (hb : (server url).body = .pylist rs
        ∨ ∃ fields, (server url).body = .pydict fields
            ∧ fields.lookup "enrollment_terms" = some (.pylist rs)) :
    paginatedLoop server (fuel + 1) (some url) acc
      = paginatedLoop server fuel (getNextUrl (server url).linkHeader) (acc ++ rs) := by
  have hrecs : extendItems (normalizeData (server url).body) = rs := by
    rcases hb with h | ⟨fields, hf, hl⟩
    · rw [h]
      rfl
    · rw [hf]
      simp [normalizeData, dictGet, hl, extendItems]
  rw [paginatedLoop_succ_of_ok server url acc fuel hne h200, hrecs]

/-- C8 witness: a body wrapping two records under `enrollment_terms`
appends exactly those two records. -/
theorem C8_witness :
    paginatedLoop wrappedServer 1 (some "u") []
      = paginatedLoop wrappedServer 0 (getNextUrl (wrappedServer "u").linkHeader)
          [PyVal.pystr "w1", PyVal.pystr "w2"] :=
  C8_body_normalization wrappedServer "u" [] 0 _ (by decide) rfl (Or.inr ⟨_, rfl, rfl⟩)

/-- C9: reading a key whose cache file does not exist yields absent (the
source's `(None, None)`) as a normal value, at every TTL and at the
default TTL; the load path performs no writes. -/
theorem C9_missing_file_absent (ttl : ℚ) (fs : FileSys) (now : ℚ)
    (key : String) (h : fs key = none) :
    load_from_file_cache_ttl ttl fs now key = .ok none
    ∧ load_from_file_cache fs now key = .ok none :=
  ⟨by simp [load_from_file_cache_ttl, h],
   by simp [load_from_file_cache, load_from_file_cache_ttl, h]⟩

/-- C9 witness: reading from the empty file system is absent. -/
theorem C9_witness :
    load_from_file_cache_ttl 24 emptyFS 0 ".canvas_cache/terms.pkl" = .ok none
    ∧ load_from_file_cache emptyFS 0 ".canvas_cache/terms.pkl" = .ok none :=
  C9_missing_file_absent 24 emptyFS 0 ".canvas_cache/terms.pkl" rfl

/-- With enough fuel for the link chain to reach a terminating page, the
loop produces a value (never runs out of fuel). -/
theorem paginatedLoop_total_of_chain {server : Server} :
    ∀ (n : Nat) (ourl : Option String), terminatesWithin server n ourl = true →
      ∀ acc : List PyVal, ∃ r, paginatedLoop server n ourl acc = some r := by
  intro n
  induction n with
  | zero =>
      intro ourl h acc
      cases ourl with
      | none => exact ⟨acc, rfl⟩
      | some url =>
          have hempty : url = "" := by simpa [terminatesWithin] using h
          exact ⟨acc, by simp [paginatedLoop, hempty]⟩
  | succ n ih =>
      intro ourl h acc
      cases ourl with
      | none => exact ⟨acc, rfl⟩
      | some url =>
          by_cases hempty : url = ""
          · exact ⟨acc, by simp [paginatedLoop, hempty]⟩
          · by_cases hs : (server url).status_code ≠ 200
            · exact ⟨acc, by simp [paginatedLoop, hempty, hs]⟩
            · have h200 : (server url).status_code = 200 := by omega
              have hrest : terminatesWithin server n (getNextUrl (server url).linkHeader) = true := by
                simpa [terminatesWithin, hempty, h200] using h
              obtain ⟨r, hr⟩ := ih (getNextUrl (server url).linkHeader) hrest
                (acc ++ extendItems (normalizeData (server url).body))
              exact ⟨r, by rw [paginatedLoop_succ_of_ok server url acc n hempty h200]; exact hr⟩

/-- In `loopServer`, the page `loop` links back to itself, and the loop
never produces a value at any fuel: the fetcher has no cycle detection. -/
theorem loopServer_no_result :
    ∀ (fuel : Nat) (acc : List PyVal),
      paginatedLoop loopServer fuel (some "loop") acc = none := by
  intro fuel
  induction fuel with
  | zero => intro acc; rfl
  | succ n ih =>
      intro acc
      show paginatedLoop loopServer n (some "loop") (acc ++ []) = none
      exact ih (acc ++ [])

/-- C10: the fetcher terminates (with a value) whenever the server's chain
of `rel="next"` links reaches a terminating page — one answering non-200,
omitting the `next` relation, or yielding the falsy empty string as the
extracted next URL — within the given number of requests; it performs no
cycle detection, so on a self-linking page it never finishes at any fuel. -/
theorem C10_termination_from_finite_chain (server : Server) (url : String)
    (fuel : Nat) (h : terminatesWithin server fuel (some url) = true) :
    (∃ r, paginated_get_from_api server fuel url = some r)
    ∧ ∀ f : Nat, paginated_get_from_api loopServer f "loop" = none :=
  ⟨paginatedLoop_total_of_chain fuel (some url) h [],
   fun f => loopServer_no_result f []⟩

/-- C10 witness: a single-page server (status 200, no Link header)
terminates within one request. -/
theorem C10_witness :
    (∃ r, paginated_get_from_api emptyOkServer 1 "u" = some r)
    ∧ ∀ f : Nat, paginated_get_from_api loopServer f "loop" = none :=
  C10_termination_from_finite_chain emptyOkServer "u" 1 rfl
